import Mathlib

/-!
Shallow embedding of the videofix-rs repository (src/main.rs, src/metadata.rs,
src/validation.rs) and proofs about its compliance engine, remediation planner,
target resolution and metadata extraction.

Conventions:
* Rust `anyhow::Result<T>` becomes `Except String T`; error strings are the
  exact `anyhow!` format strings with the arguments spliced in.
* Rust `String` / `&str` become Lean `String`; `Vec<T>` becomes `List T`;
  `i64` becomes `Int`; `Option<T>` becomes `Option T`.
* Filesystem existence is passed in as an explicit predicate; invoking the
  external `ffmpeg` process is modelled by returning the argument list that
  `reencode` would spawn (`Except.ok args` = the process is invoked with
  `args`; `Except.error e` = no process is invoked).
* `FileMetadata.duration` keeps the prober's raw optional string: the source
  parses it as an `f64` and divides by 60, which is floating point and is used
  by nothing modelled here (the field is marked `#[allow(unused)]` in source).
-/

namespace Videofix

/-! ## ffprobe input shape (the fields of `ffprobe::Stream` / `ffprobe::Format`
read by src/metadata.rs) -/

structure Stream where
  index : Int
  codec_type : Option String
  codec_name : Option String
  pix_fmt : Option String
  channels : Option Int
deriving Repr, DecidableEq

structure Format where
  filename : String
  format_name : String
  duration : Option String
deriving Repr, DecidableEq

structure FfProbe where
  format : Format
  streams : List Stream
deriving Repr, DecidableEq

/-! ## src/metadata.rs -/

structure VideoMetadata where
  index : Int
  codec : String
  pix_fmt : String
deriving Repr, DecidableEq

structure AudioMetadata where
  index : Int
  codec : String
  channels : Int
deriving Repr, DecidableEq

structure FileMetadata where
  container : String
  duration : Option String
  video : VideoMetadata
  audio : AudioMetadata
deriving Repr, DecidableEq

/-- The filter inside `find_stream_by_type`: streams whose `codec_type` equals
the requested type (`s.codec_type.as_ref().map(|s| s == stream_type).unwrap_or(false)`). -/
def streams_of_type (details : FfProbe) (stream_type : String) : List Stream :=
  details.streams.filter (fun s => s.codec_type == some stream_type)

/-- `find_stream_by_type` from src/metadata.rs: `at_most_one()` on the filtered
iterator errors on two or more matches, then a missing single match errors. -/
def find_stream_by_type (details : FfProbe) (stream_type : String) : Except String Stream :=
  match streams_of_type details stream_type with
  | [] => Except.error ("no " ++ stream_type ++ " stream found in " ++ details.format.filename)
  | [s] => Except.ok s
  | _ => Except.error ("more than one matching " ++ stream_type ++ " stream in "
      ++ details.format.filename)

/-- `get_codec` from src/metadata.rs. -/
def get_codec (stream : Stream) : Except String String :=
  match stream.codec_name with
  | some s => Except.ok s
  | none => Except.error ("no codec found for stream " ++ toString stream.index)

/-- `get_pix_fmt` from src/metadata.rs. -/
def get_pix_fmt (stream : Stream) : Except String String :=
  match stream.pix_fmt with
  | some s => Except.ok s
  | none => Except.error ("no pix_fmt found for stream " ++ toString stream.index)

/-- `get_container` from src/metadata.rs: the characters of `format_name`
before the first comma (`chars().take_while(|&c| c != ',').collect()`). -/
def get_container (details : FfProbe) : String :=
  String.mk (details.format.format_name.data.takeWhile (fun c => c != ','))

/-- `get_video_metadata` from src/metadata.rs (field initializers run in
source order: index, codec, pix_fmt). -/
def get_video_metadata (details : FfProbe) : Except String VideoMetadata := do
  let video_stream ← find_stream_by_type details "video"
  let codec ← get_codec video_stream
  let pf ← get_pix_fmt video_stream
  pure { index := video_stream.index, codec := codec, pix_fmt := pf }

/-- `get_audio_metadata` from src/metadata.rs: a missing `channels` field is
defaulted to 0 (`unwrap_or(0)`), unlike a missing codec which errors. -/
def get_audio_metadata (details : FfProbe) : Except String AudioMetadata := do
  let audio_stream ← find_stream_by_type details "audio"
  let codec ← get_codec audio_stream
  pure { index := audio_stream.index, codec := codec,
         channels := audio_stream.channels.getD 0 }

/-- `get_metadata` from src/metadata.rs. Rust evaluates the struct-literal
fields in source order, so the `audio` extraction runs (and can fail) before
the `video` extraction. The ffprobe call itself is out of scope: this starts
from its parsed result. -/
def get_metadata (details : FfProbe) : Except String FileMetadata := do
  let audio ← get_audio_metadata details
  let video ← get_video_metadata details
  pure { container := get_container details, duration := details.format.duration,
         audio := audio, video := video }

/-! ## Policy configuration types from src/main.rs -/

inductive Formats where
  | Allow (items : List String)
  | Reject (items : List String)
deriving Repr, DecidableEq

structure FormatSpec where
  audio : Formats
  video : Formats
  container : Formats
  pix_fmt : Formats
deriving Repr, DecidableEq

structure DefaultFormat where
  audio : String
  video : String
  pix_fmt : String
deriving Repr, DecidableEq

structure Target where
  name : String
  format_spec : FormatSpec
  default : DefaultFormat
deriving Repr, DecidableEq

structure Config where
  default_target : String
  targets : List Target
deriving Repr, DecidableEq

/-- `Config::find_target` from src/main.rs: first entry (in list order) whose
`name` equals the requested string, else a "could not find" error. -/
def Config.find_target (c : Config) (requested_target : String) : Except String Target :=
  match c.targets.find? (fun t => t.name == requested_target) with
  | some t => Except.ok t
  | none => Except.error ("could not find requested target \"" ++ requested_target
      ++ "\" in config")

/-! ## src/validation.rs, exactly as checked in: the `FormatValidation` record
declared there has only three flags and no `pix_fmt_okay` field, and
`validate_format` never reads `format.pix_fmt` (src/main.rs, by contrast,
reads `validation.pix_fmt_okay`, so the crate as snapshotted does not
compile; see `FormatValidationFull` below). -/

structure FormatValidation where
  audio_okay : Bool
  video_okay : Bool
  container_okay : Bool
deriving Repr, DecidableEq

/-- `FormatValidation::is_valid` from src/validation.rs. -/
def FormatValidation.is_valid (v : FormatValidation) : Bool :=
  v.audio_okay && v.video_okay && v.container_okay

/-- `allow` from src/validation.rs: `format.contains(value)`. -/
def allow (format : List String) (value : String) : Bool :=
  format.contains value

/-- `reject` from src/validation.rs: `!allow(format, value)`. -/
def reject (format : List String) (value : String) : Bool :=
  !allow format value

/-- `validate_format_component` from src/validation.rs. -/
def validate_format_component (format : Formats) (value : String) : Bool :=
  match format with
  | Formats.Allow items => allow items value
  | Formats.Reject items => reject items value

/-- `validate_format` from src/validation.rs. -/
def validate_format (file : FileMetadata) (format : FormatSpec) : FormatValidation :=
  { audio_okay := validate_format_component format.audio file.audio.codec,
    video_okay := validate_format_component format.video file.video.codec,
    container_okay := validate_format_component format.container file.container }

/-! ## Remediation planner from src/main.rs -/

/-- Modelled from the spec: the four-flag validation record (`container_okay`,
`video_okay`, `audio_okay`, `pix_fmt_okay`) that §3 describes and that
src/main.rs requires of its `validation` value (it reads all four fields,
including `pix_fmt_okay`), but whose declaration is missing from
src/src/validation.rs as checked in (that file declares only three flags). -/
structure FormatValidationFull where
  audio_okay : Bool
  video_okay : Bool
  container_okay : Bool
  pix_fmt_okay : Bool
deriving Repr, DecidableEq

/-- Rust `Path::file_stem` on a single path component, as `List Char`:
everything before the last dot, except that a leading dot with no later dot
is part of the stem (hidden files have no extension). Special components
`.` and `..` are not modelled (they never name a media file). -/
def fileStem (name : List Char) : List Char :=
  match name.reverse.dropWhile (fun c => c != '.') with
  | '.' :: revStem => if revStem.isEmpty then name else revStem.reverse
  | _ => name

/-- Rust `Path::with_extension` over `List Char`, for a nonempty new
extension: replace the final component's extension (append when it has
none); a path with an empty final component is returned unchanged. -/
def withExtensionChars (p : List Char) (ext : List Char) : List Char :=
  let revp := p.reverse
  let name := (revp.takeWhile (fun c => c != '/')).reverse
  let parent := (revp.dropWhile (fun c => c != '/')).reverse
  if name.isEmpty then p else parent ++ fileStem name ++ '.' :: ext

/-- The derived remediation output path from src/main.rs line 169:
`in_path.as_ref().with_extension("fixed.mkv")`. -/
def fixedOutPath (in_path : String) : String :=
  String.mk (withExtensionChars in_path.data "fixed.mkv".data)

/-- `reencode` from src/main.rs, up to the point where the external `ffmpeg`
process would be spawned. `fileExists` stands for `Path::exists`. On success
the result carries the argument list handed to `ffmpeg` (in `cmd.arg` order);
the error branch is taken before any process is constructed. The
`guard_terminal_size` prompt (pure terminal I/O between the existence check
and the spawn) does not affect the directive and is not modelled. -/
def reencode (in_path : String) (val : FormatValidationFull) (default : DefaultFormat)
    (fileExists : String → Bool) : Except String (List String) :=
  let vcodec := if val.video_okay then "copy" else default.video
  let acodec := if val.audio_okay then "copy" else default.audio
  let out_path := fixedOutPath in_path
  if fileExists out_path then
    Except.error ("fix target " ++ out_path ++ " already exists")
  else
    Except.ok (["-loglevel", "warning", "-stats", "-i", in_path, "-c:v", vcodec]
      ++ (if !val.pix_fmt_okay then ["-pix_fmt", default.pix_fmt] else [])
      ++ ["-c:a", acodec, out_path])

/-- The argument directly following the first occurrence of `key`, used to
read a flag's value out of the `ffmpeg` argument list built by `reencode`. -/
def argAfter : List String → String → Option String
  | [], _ => none
  | [_], _ => none
  | x :: y :: rest, key => if x = key then some y else argAfter (y :: rest) key

/-! ## Concrete sample values used by witnesses and counterexamples -/

/-- A policy whose pixel-format rule only allows yuv420p. -/
def samplePixSpec : FormatSpec :=
  { audio := Formats.Allow ["aac"], video := Formats.Allow ["h264"],
    container := Formats.Allow ["matroska"], pix_fmt := Formats.Allow ["yuv420p"] }

/-- A file compliant on audio, video and container but not on pixel format. -/
def samplePixFile : FileMetadata :=
  { container := "matroska", duration := none,
    video := { index := 0, codec := "h264", pix_fmt := "yuv444p" },
    audio := { index := 1, codec := "aac", channels := 2 } }

/-- A remediation default. -/
def sampleDefault : DefaultFormat :=
  { audio := "aac", video := "h264", pix_fmt := "yuv420p" }

/-- A one-target configuration. -/
def sampleConfig : Config :=
  { default_target := "good",
    targets := [{ name := "good", format_spec := samplePixSpec, default := sampleDefault }] }

/-- A configuration with two targets of the same name but different defaults,
to observe which entry a lookup returns. -/
def sampleDupConfig : Config :=
  { default_target := "good",
    targets := [
      { name := "good", format_spec := samplePixSpec, default := sampleDefault },
      { name := "good", format_spec := samplePixSpec,
        default := { audio := "mp3", video := "h265", pix_fmt := "yuv444p" } }] }

/-- A validation with every flag false. -/
def sampleValidation : FormatValidationFull :=
  { audio_okay := false, video_okay := false, container_okay := false, pix_fmt_okay := false }

/-- A probe result with a single audio stream that lacks a codec name, and no
video stream at all. -/
def sampleBadProbe : FfProbe :=
  { format := { filename := "movie.mkv", format_name := "matroska,webm", duration := none },
    streams := [{ index := 0, codec_type := some "audio", codec_name := none,
                  pix_fmt := none, channels := none }] }

/-- A probe result with no streams. -/
def sampleEmptyProbe : FfProbe :=
  { format := { filename := "movie.mkv", format_name := "matroska,webm", duration := none },
    streams := [] }

/-- A well-formed probe result whose audio stream has no channel count. -/
def sampleGoodProbe : FfProbe :=
  { format := { filename := "movie.mkv", format_name := "matroska,webm", duration := none },
    streams := [
      { index := 0, codec_type := some "video", codec_name := some "h264",
        pix_fmt := some "yuv420p", channels := none },
      { index := 1, codec_type := some "audio", codec_name := some "aac",
        pix_fmt := none, channels := none }] }

end Videofix

namespace Videofix

/-! ## Helper lemmas -/

theorem find_stream_nil (d : FfProbe) (ty : String)
    (h : streams_of_type d ty = []) :
    find_stream_by_type d ty =
      Except.error ("no " ++ ty ++ " stream found in " ++ d.format.filename) := by
  rw [find_stream_by_type, h]

theorem find_stream_single (d : FfProbe) (ty : String) (s : Stream)
    (h : streams_of_type d ty = [s]) :
    find_stream_by_type d ty = Except.ok s := by
  rw [find_stream_by_type, h]

theorem find_stream_multi (d : FfProbe) (ty : String)
    (h : 2 ≤ (streams_of_type d ty).length) :
    find_stream_by_type d ty =
      Except.error ("more than one matching " ++ ty ++ " stream in "
        ++ d.format.filename) := by
  rw [find_stream_by_type]
  cases hs : streams_of_type d ty with
  | nil => rw [hs] at h; simp at h
  | cons a rest =>
    cases rest with
    | nil => rw [hs] at h; simp at h
    | cons b r2 => rfl

theorem get_audio_ok (d : FfProbe) (s : Stream) (c : String)
    (ha : streams_of_type d "audio" = [s]) (hc : s.codec_name = some c) :
    get_audio_metadata d =
      Except.ok { index := s.index, codec := c, channels := s.channels.getD 0 } := by
  rw [get_audio_metadata]
  rw [find_stream_single d "audio" s ha]
  simp [get_codec, hc, Bind.bind, Except.bind, Pure.pure, Except.pure]

theorem get_video_ok (d : FfProbe) (s : Stream) (c pf : String)
    (hv : streams_of_type d "video" = [s]) (hc : s.codec_name = some c)
    (hpf : s.pix_fmt = some pf) :
    get_video_metadata d =
      Except.ok { index := s.index, codec := c, pix_fmt := pf } := by
  rw [get_video_metadata]
  rw [find_stream_single d "video" s hv]
  simp [get_codec, get_pix_fmt, hc, hpf, Bind.bind, Except.bind, Pure.pure, Except.pure]

theorem get_audio_err (d : FfProbe) (e : String)
    (h : find_stream_by_type d "audio" = Except.error e) :
    get_metadata d = Except.error e := by
  rw [get_metadata, get_audio_metadata, h]
  rfl

theorem get_video_err (d : FfProbe) (s : Stream) (c : String) (e : String)
    (ha : streams_of_type d "audio" = [s]) (hc : s.codec_name = some c)
    (h : find_stream_by_type d "video" = Except.error e) :
    get_metadata d = Except.error e := by
  rw [get_metadata, get_audio_ok d s c ha hc]
  rw [get_video_metadata, h]
  rfl

theorem get_audio_codec_err (d : FfProbe) (s : Stream)
    (ha : streams_of_type d "audio" = [s]) (hc : s.codec_name = none) :
    get_metadata d =
      Except.error ("no codec found for stream " ++ toString s.index) := by
  rw [get_metadata, get_audio_metadata, find_stream_single d "audio" s ha]
  simp [get_codec, hc, Bind.bind, Except.bind]

/-- C2: an `Allow S` rule judges a value compliant iff the value is a member
of `S`; in particular `Allow []` judges every value non-compliant. -/
theorem allow_spec (S : List String) (v : String) :
    (validate_format_component (Formats.Allow S) v = true ↔ v ∈ S) ∧
    validate_format_component (Formats.Allow []) v = false := by
  constructor
  · simp [validate_format_component, allow, List.contains, List.elem_iff]
  · simp [validate_format_component, allow]

/-- C3: a `Reject S` rule judges a value compliant iff the value is not a
member of `S`; in particular `Reject []` judges every value compliant. -/
theorem reject_spec (S : List String) (v : String) :
    (validate_format_component (Formats.Reject S) v = true ↔ v ∉ S) ∧
    validate_format_component (Formats.Reject []) v = true := by
  constructor
  · simp [validate_format_component, reject, allow, List.contains, List.elem_iff]
  · simp [validate_format_component, reject, allow]

/-- C1: against the claim (and against src/main.rs, which reads
`validation.pix_fmt_okay`), the engine checked in at src/src/validation.rs
has no `pix_fmt_okay` flag and `is_valid` is the conjunction of only three
flags. Evaluated at a file whose pixel format violates the policy's
`pix_fmt` rule while the other three dimensions comply, `validate_format`
yields `is_valid = true` even though the pixel-format rule rejects the
observed value. -/
theorem is_valid_ignores_pix_fmt :
    (validate_format samplePixFile samplePixSpec).is_valid = true ∧
    validate_format_component samplePixSpec.pix_fmt samplePixFile.video.pix_fmt = false :=
  ⟨rfl, rfl⟩

/-- C4: in the remediation directive built by `reencode`, the argument after
`-c:v` is exactly "copy" if `video_okay` and otherwise `default.video`, and
the argument after `-c:a` is exactly "copy" if `audio_okay` and otherwise
`default.audio` (side conditions only rule out codec/path names that collide
with the flag strings themselves). -/
theorem reencode_codec_args (p : String) (val : FormatValidationFull)
    (d : DefaultFormat) (fe : String → Bool)
    (h0 : fe (fixedOutPath p) = false)
    (h1 : p ≠ "-c:v") (h2 : p ≠ "-c:a")
    (h3 : d.video ≠ "-c:a") (h4 : d.pix_fmt ≠ "-c:a") :
    ∃ args, reencode p val d fe = Except.ok args ∧
      argAfter args "-c:v" = some (if val.video_okay then "copy" else d.video) ∧
      argAfter args "-c:a" = some (if val.audio_okay then "copy" else d.audio) := by
  have hok : reencode p val d fe = Except.ok
      (["-loglevel", "warning", "-stats", "-i", p, "-c:v",
        (if val.video_okay then "copy" else d.video)]
       ++ (if !val.pix_fmt_okay then ["-pix_fmt", d.pix_fmt] else [])
       ++ ["-c:a", (if val.audio_okay then "copy" else d.audio), fixedOutPath p]) := by
    rw [reencode]
    simp [h0]
  refine ⟨_, hok, ?_, ?_⟩
  · cases hv : val.video_okay <;> cases hpf : val.pix_fmt_okay <;>
      simp [argAfter, h1, h2, h3, h4]
  · cases hv : val.video_okay <;> cases ha : val.audio_okay <;> cases hpf : val.pix_fmt_okay <;>
      simp [argAfter, h1, h2, h3, h4]

/-- C4 witness: at a non-compliant validation, the directive converts video
to "h264" and audio to "aac". -/
theorem reencode_codec_args_witness :
    ∃ args, reencode "movie.mkv" sampleValidation sampleDefault (fun _ => false) =
        Except.ok args ∧
      argAfter args "-c:v" = some "h264" ∧
      argAfter args "-c:a" = some "aac" := by
  exact reencode_codec_args "movie.mkv" sampleValidation sampleDefault (fun _ => false)
    rfl (by decide) (by decide) (by decide) (by decide)

/-- C5: when a file already exists at the derived output path, `reencode`
returns the precondition error naming that path, and no `ffmpeg` argument
list is ever produced (the spawn is modelled by the `Except.ok` branch). -/
theorem reencode_existing_target (p : String) (val : FormatValidationFull)
    (d : DefaultFormat) (fe : String → Bool) (h : fe (fixedOutPath p) = true) :
    reencode p val d fe =
      Except.error ("fix target " ++ fixedOutPath p ++ " already exists") := by
  simp [reencode, h]

/-- C5 witness: with `movie.fixed.mkv` already present, remediation of
`movie.mkv` fails with the error naming `movie.fixed.mkv`. -/
theorem reencode_existing_target_witness :
    reencode "movie.mkv" sampleValidation sampleDefault (fun _ => true) =
      Except.error "fix target movie.fixed.mkv already exists" :=
  reencode_existing_target "movie.mkv" sampleValidation sampleDefault (fun _ => true) rfl

/-- C6: `Config::find_target` succeeds whenever some target's name equals the
requested string exactly, returning the first such target in list order (all
earlier entries differ, so duplicate names silently prefer the earliest
entry); every success is such a first match; and when no entry matches —
including for the empty requested name — it fails with the "could not find
requested target" error naming the request. -/
theorem find_target_spec (c : Config) (req : String) :
    (∀ l1 t l2, c.targets = l1 ++ t :: l2 → t.name = req → (∀ u ∈ l1, u.name ≠ req) →
      c.find_target req = Except.ok t) ∧
    (∀ t, c.find_target req = Except.ok t →
      t.name = req ∧ ∃ l1 l2, c.targets = l1 ++ t :: l2 ∧ ∀ u ∈ l1, u.name ≠ req) ∧
    ((∀ t ∈ c.targets, t.name ≠ req) →
      c.find_target req =
        Except.error ("could not find requested target \"" ++ req ++ "\" in config")) := by
  refine ⟨?_, ?_, ?_⟩
  · intro l1 t l2 hl hname hall
    have hf : c.targets.find? (fun t => t.name == req) = some t := by
      rw [List.find?_eq_some]
      refine ⟨by simp [hname], l1, l2, hl, fun u hu => by simp [hall u hu]⟩
    rw [Config.find_target, hf]
  · intro t h
    cases hfind : c.targets.find? (fun t => t.name == req) with
    | none =>
      rw [Config.find_target, hfind] at h
      exact absurd h (by simp)
    | some u =>
      rw [Config.find_target, hfind] at h
      have hut : u = t := by simpa using h
      subst hut
      rw [List.find?_eq_some] at hfind
      obtain ⟨hp, l1, l2, hl, hall⟩ := hfind
      refine ⟨by simpa using hp, l1, l2, hl, fun y hy => by simpa using hall y hy⟩
  · intro hall
    have hf : c.targets.find? (fun t => t.name == req) = none := by
      rw [List.find?_eq_none]
      intro t ht
      simpa using hall t ht
    simp [Config.find_target, hf]

/-- C6 witness: in a configuration with two targets both named "good",
looking up "good" succeeds and returns the first entry (the one whose
default audio is "aac", not the later "mp3" one), while looking up the
empty name fails with the not-found error naming "". -/
theorem find_target_spec_witness :
    Config.find_target sampleDupConfig "good" =
      Except.ok { name := "good", format_spec := samplePixSpec, default := sampleDefault } ∧
    Config.find_target sampleDupConfig "" =
      Except.error "could not find requested target \"\" in config" :=
  ⟨(find_target_spec sampleDupConfig "good").1 []
      { name := "good", format_spec := samplePixSpec, default := sampleDefault }
      [{ name := "good", format_spec := samplePixSpec,
         default := { audio := "mp3", video := "h265", pix_fmt := "yuv444p" } }]
      (by rfl) rfl (by simp),
   (find_target_spec sampleDupConfig "").2.2 (by decide)⟩

end Videofix

namespace Videofix

/-- C7 counterexample: a probe result with zero video streams for which the
claimed error shape fails: its single audio stream lacks a codec name, audio
is extracted first, and extraction fails with "no codec found for stream 0" —
an error that names neither the file nor a "stream found" / "more than one"
condition, although the video-stream count is zero. -/
theorem get_metadata_masked_count_counterexample :
    (streams_of_type sampleBadProbe "video").length = 0 ∧
    get_metadata sampleBadProbe = Except.error "no codec found for stream 0" ∧
    ¬ ("movie.mkv".data <:+: "no codec found for stream 0".data) ∧
    ¬ ("stream found".data <:+: "no codec found for stream 0".data) ∧
    ¬ ("more than one".data <:+: "no codec found for stream 0".data) :=
  ⟨rfl, rfl, by decide, by decide, by decide⟩

/-- C7 (amended): extraction fails whenever the audio- or video-stream count
differs from one. Zero audio streams give "no audio stream found in FILE";
two or more give "more than one matching audio stream in FILE"; when exactly
one audio stream exists and it carries a codec name, zero or multiple video
streams give the corresponding video-count error naming the file. (When the
single audio stream lacks a codec name the extraction still fails, but with
the missing-codec error — see the counterexample.) -/
theorem get_metadata_count_errors (d : FfProbe) :
    (((streams_of_type d "audio").length ≠ 1 ∨ (streams_of_type d "video").length ≠ 1) →
      ∃ e, get_metadata d = Except.error e) ∧
    (streams_of_type d "audio" = [] →
      get_metadata d = Except.error ("no audio stream found in " ++ d.format.filename)) ∧
    (2 ≤ (streams_of_type d "audio").length →
      get_metadata d =
        Except.error ("more than one matching audio stream in " ++ d.format.filename)) ∧
    (∀ s c, streams_of_type d "audio" = [s] → s.codec_name = some c →
      (streams_of_type d "video" = [] →
        get_metadata d = Except.error ("no video stream found in " ++ d.format.filename)) ∧
      (2 ≤ (streams_of_type d "video").length →
        get_metadata d =
          Except.error ("more than one matching video stream in " ++ d.format.filename))) := by
  have pnone : streams_of_type d "audio" = [] →
      get_metadata d = Except.error ("no audio stream found in " ++ d.format.filename) :=
    fun h => get_audio_err d _ (find_stream_nil d "audio" h)
  have pmulti : 2 ≤ (streams_of_type d "audio").length →
      get_metadata d =
        Except.error ("more than one matching audio stream in " ++ d.format.filename) :=
    fun h => get_audio_err d _ (find_stream_multi d "audio" h)
  have pvid : ∀ s c, streams_of_type d "audio" = [s] → s.codec_name = some c →
      (streams_of_type d "video" = [] →
        get_metadata d = Except.error ("no video stream found in " ++ d.format.filename)) ∧
      (2 ≤ (streams_of_type d "video").length →
        get_metadata d =
          Except.error ("more than one matching video stream in " ++ d.format.filename)) := by
    intro s c ha hc
    exact ⟨fun h => get_video_err d s c _ ha hc (find_stream_nil d "video" h),
           fun h => get_video_err d s c _ ha hc (find_stream_multi d "video" h)⟩
  refine ⟨?_, pnone, pmulti, pvid⟩
  intro h
  cases ha : streams_of_type d "audio" with
  | nil => exact ⟨_, pnone ha⟩
  | cons s rest =>
    cases rest with
    | cons b r2 => exact ⟨_, pmulti (by rw [ha]; simp)⟩
    | nil =>
      cases hc : s.codec_name with
      | none => exact ⟨_, get_audio_codec_err d s ha hc⟩
      | some c =>
        have hcv : (streams_of_type d "video").length ≠ 1 := by
          rcases h with h | h
          · exact absurd (by rw [ha]; rfl) h
          · exact h
        cases hv : streams_of_type d "video" with
        | nil => exact ⟨_, (pvid s c ha hc).1 hv⟩
        | cons sv rest2 =>
          cases rest2 with
          | nil => exact absurd (by rw [hv]; rfl) hcv
          | cons b2 r3 => exact ⟨_, (pvid s c ha hc).2 (by rw [hv]; simp)⟩

/-- C7 witness: a probe result with no streams at all fails with the
"no audio stream found" error naming the file. -/
theorem get_metadata_count_errors_witness :
    get_metadata sampleEmptyProbe = Except.error "no audio stream found in movie.mkv" :=
  (get_metadata_count_errors sampleEmptyProbe).2.1 rfl

/-- C8: the `-pix_fmt` override appears in the directive built by `reencode`
exactly when `pix_fmt_okay` is false, and then the argument after `-pix_fmt`
is `default.pix_fmt`; when `pix_fmt_okay` is true the flag is absent (side
conditions only rule out codec/path names that collide with the flag string
itself). -/
theorem reencode_pix_fmt_flag (p : String) (val : FormatValidationFull)
    (d : DefaultFormat) (fe : String → Bool)
    (h0 : fe (fixedOutPath p) = false)
    (h1 : p ≠ "-pix_fmt") (h2 : d.video ≠ "-pix_fmt")
    (h3 : d.audio ≠ "-pix_fmt") (h4 : fixedOutPath p ≠ "-pix_fmt") :
    ∃ args, reencode p val d fe = Except.ok args ∧
      (("-pix_fmt" ∈ args) ↔ val.pix_fmt_okay = false) ∧
      (val.pix_fmt_okay = false → argAfter args "-pix_fmt" = some d.pix_fmt) := by
  have hok : reencode p val d fe = Except.ok
      (["-loglevel", "warning", "-stats", "-i", p, "-c:v",
        (if val.video_okay then "copy" else d.video)]
       ++ (if !val.pix_fmt_okay then ["-pix_fmt", d.pix_fmt] else [])
       ++ ["-c:a", (if val.audio_okay then "copy" else d.audio), fixedOutPath p]) := by
    rw [reencode]
    simp [h0]
  refine ⟨_, hok, ?_, ?_⟩
  · cases hv : val.video_okay <;> cases ha : val.audio_okay <;> cases hpf : val.pix_fmt_okay <;>
      simp [Ne.symm h1, Ne.symm h2, Ne.symm h3, Ne.symm h4]
  · intro hpf
    cases hv : val.video_okay <;>
      simp [hpf, argAfter, h1, h2]

/-- C8 witness: with `pix_fmt_okay` false the directive carries
`-pix_fmt yuv420p`. -/
theorem reencode_pix_fmt_flag_witness :
    ∃ args, reencode "movie.mkv" sampleValidation sampleDefault (fun _ => false) =
        Except.ok args ∧
      (("-pix_fmt" ∈ args) ↔ sampleValidation.pix_fmt_okay = false) ∧
      (sampleValidation.pix_fmt_okay = false →
        argAfter args "-pix_fmt" = some "yuv420p") := by
  exact reencode_pix_fmt_flag "movie.mkv" sampleValidation sampleDefault (fun _ => false)
    rfl (by decide) (by decide) (by decide) (by decide)

/-- C10: when the single audio stream carries a codec name but no channel
count, metadata extraction succeeds (given a well-formed video stream) and
the resulting `FileMetadata` has `audio.channels = 0`. -/
theorem get_metadata_missing_channels (d : FfProbe) (sa sv : Stream) (ca cv pf : String)
    (ha : streams_of_type d "audio" = [sa]) (hac : sa.codec_name = some ca)
    (hch : sa.channels = none)
    (hv : streams_of_type d "video" = [sv]) (hvc : sv.codec_name = some cv)
    (hpf : sv.pix_fmt = some pf) :
    get_metadata d = Except.ok
      { container := get_container d, duration := d.format.duration,
        video := { index := sv.index, codec := cv, pix_fmt := pf },
        audio := { index := sa.index, codec := ca, channels := 0 } } := by
  have hao := get_audio_ok d sa ca ha hac
  rw [hch] at hao
  rw [get_metadata, hao, get_video_ok d sv cv pf hv hvc hpf]
  rfl

/-- C10 witness: a well-formed probe whose audio stream has no channel count
extracts successfully with `channels = 0`. -/
theorem get_metadata_missing_channels_witness :
    get_metadata sampleGoodProbe = Except.ok
      { container := "matroska", duration := none,
        video := { index := 0, codec := "h264", pix_fmt := "yuv420p" },
        audio := { index := 1, codec := "aac", channels := 0 } } := by
  rw [get_metadata_missing_channels sampleGoodProbe
    { index := 1, codec_type := some "audio", codec_name := some "aac",
      pix_fmt := none, channels := none }
    { index := 0, codec_type := some "video", codec_name := some "h264",
      pix_fmt := some "yuv420p", channels := none }
    "aac" "h264" "yuv420p" rfl rfl rfl rfl rfl rfl]
  rfl

end Videofix
